import Mathlib

/-!
# Workspace binding validation (`pkg/workspace/validate.go`)

A shallow embedding of the two validation routines of package `workspace`:

* `ValidateBindings`: every binding passes its own validation and the bound
  names match the declared names;
* `ValidateOnlyOnePVCIsUsed`: the bindings use at most one persistent volume
  claim.

A Go `error` result is an `Option`: `none` is `nil`, `some e` is a returned
error. An error built by `fmt.Errorf` is kept as its format string together
with its arguments (`ValidationError`, `ValidationError.format`).
-/

namespace Workspace

/-! ## Data model -/

/-- Modelled from the spec: `v1beta1.WorkspaceDeclaration` (package
`pkg/apis/pipeline/v1beta1` is not part of the sources at hand). A name plus
descriptive metadata that validation never reads. -/
structure WorkspaceDeclaration where
  Name : String
  Description : String := ""
  deriving DecidableEq

/-- Modelled from the spec: the persistent-volume-claim reference of a
binding; only the claim name is read. -/
structure PersistentVolumeClaimVolumeSource where
  ClaimName : String
  deriving DecidableEq

/-- Modelled from the spec: the inline claim template of a binding. Its
content is never read by this package, only its presence. -/
structure PersistentVolumeClaim where
  Spec : String := ""
  deriving DecidableEq

/-- Modelled from the spec: `v1beta1.WorkspaceBinding`. As in the Go struct
every storage source is a pointer field of its own (`none` is `nil`), so a
value may carry no source, one source or several. -/
structure WorkspaceBinding where
  Name : String
  VolumeClaimTemplate : Option PersistentVolumeClaim := none
  PersistentVolumeClaim : Option PersistentVolumeClaimVolumeSource := none
  EmptyDir : Option Unit := none
  ConfigMap : Option String := none
  Secret : Option String := none
  deriving DecidableEq

/-- The error reported by `list.IsSame`: the required names that were not
provided and the provided names that were not required. -/
structure NameDiff where
  missing : List String
  unexpected : List String
  deriving DecidableEq

/-- The three errors of the package, one constructor per `fmt.Errorf` call,
each holding the arguments of the call. -/
inductive ValidationError where
  | bindingInvalid (name : String) (cause : String)
  | nameMismatch (err : NameDiff)
  | multiplePVC
  deriving DecidableEq

/-- The format string of the `fmt.Errorf` call that builds the error. -/
def ValidationError.format : ValidationError → String
  | .bindingInvalid _ _ => "binding %q is invalid: %v"
  | .nameMismatch _ => "bound workspaces did not match declared workspaces: %v"
  | .multiplePVC => "more than one PersistentVolumeClaim is bound"

/-! ## Collaborators outside the package -/

/-- Modelled from the spec: the number of storage sources set on a binding,
counted by the self-validation below. -/
def WorkspaceBinding.numSources (b : WorkspaceBinding) : Nat :=
  (if b.VolumeClaimTemplate.isSome then 1 else 0)
    + (if b.PersistentVolumeClaim.isSome then 1 else 0)
    + (if b.EmptyDir.isSome then 1 else 0)
    + (if b.ConfigMap.isSome then 1 else 0)
    + (if b.Secret.isSome then 1 else 0)

/-- Modelled from the spec: the self-validation of a binding
(`WorkspaceBinding.Validate`, defined in `pkg/apis/pipeline/v1beta1`, not
part of the sources at hand). The spec asks that exactly one storage source
is set. `ValidateBindings` below takes the validation as an argument; this
instance is used for concrete evaluations. -/
def WorkspaceBinding.Validate (b : WorkspaceBinding) : Option String :=
  if b.numSources = 0 then some "expected exactly one storage source, got none"
  else if b.numSources > 1 then some "expected exactly one storage source, got several"
  else none

/-- Modelled from the spec: one side of the symmetric difference of two
sequences of names, the members of `left`, in order, that do not occur in
`right`. -/
def namesNotIn (left right : List String) : List String :=
  left.filter (fun s => decide (s ∉ right))

/-- Modelled from the spec: `list.IsSame` (package `pkg/list` is not part of
the sources at hand). The two sequences are compared as sets by their
symmetric difference; when it is non-empty the error reports the names that
are declared but unbound and the names that are bound but undeclared. -/
def IsSame (required provided : List String) : Option NameDiff :=
  let missing := namesNotIn required provided
  let extra := namesNotIn provided required
  if missing.length > 0 ∨ extra.length > 0 then
    some { missing := missing, unexpected := extra }
  else none

/-! ## A Go `map[string]bool` -/

/-- A Go map as an association list with pairwise distinct keys, in order of
first insertion. -/
abbrev GoMap := List (String × Bool)

/-- The assignment `m[k] = v`. -/
def GoMap.set (m : GoMap) (k : String) (v : Bool) : GoMap :=
  if k ∈ m.map Prod.fst then m.map (fun p => if p.1 = k then (k, v) else p)
  else m ++ [(k, v)]

/-- The builtin `len(m)`. -/
def GoMap.len (m : GoMap) : Nat := m.length

/-! ## `ValidateBindings` -/

/-- The first loop of `ValidateBindings`: the bindings are validated in order
and the first failure is returned, wrapped with the name of its binding. -/
def validateEach (validate : WorkspaceBinding → Option String) :
    List WorkspaceBinding → Option ValidationError
  | [] => none
  | b :: rest =>
    match validate b with
    | some err => some (.bindingInvalid b.Name err)
    | none => validateEach validate rest

/-- `ValidateBindings` returns an error if the bound workspaces in `wb` do
not satisfy the declared workspaces in `w`. The argument `validate` is the
method `b.Validate(context.Background())`. -/
def ValidateBindings (validate : WorkspaceBinding → Option String)
    (w : List WorkspaceDeclaration) (wb : List WorkspaceBinding) :
    Option ValidationError :=
  match validateEach validate wb with
  | some e => some e
  | none =>
    let declNames := w.map (fun d => d.Name)
    let bindNames := wb.map (fun b => b.Name)
    match IsSame declNames bindNames with
    | some err => some (.nameMismatch err)
    | none => none

/-! ## `ValidateOnlyOnePVCIsUsed` -/

/-- One iteration of the loop of `ValidateOnlyOnePVCIsUsed`. -/
def recordVolumes (m : GoMap) (w : WorkspaceBinding) : GoMap :=
  let m1 :=
    match w.PersistentVolumeClaim with
    | some pvc => m.set pvc.ClaimName true
    | none => m
  match w.VolumeClaimTemplate with
  | some _ => m1.set w.Name true
  | none => m1

/-- The map `workspaceVolumes` after the loop. -/
def workspaceVolumes (wb : List WorkspaceBinding) : GoMap :=
  wb.foldl recordVolumes []

/-- `ValidateOnlyOnePVCIsUsed` checks that a list of bindings uses only one
persistent volume claim. -/
def ValidateOnlyOnePVCIsUsed (wb : List WorkspaceBinding) : Option ValidationError :=
  if (workspaceVolumes wb).len > 1 then some .multiplePVC else none

/-! ## The words of the spec -/

/-- The claim identities of a list of bindings as the spec describes them:
the claim names of the bindings that reference a persistent volume claim,
together with the names of the bindings that carry a claim template. -/
def claimIdentities (wb : List WorkspaceBinding) : Finset String :=
  (wb.filterMap (fun b => b.PersistentVolumeClaim.map (fun p => p.ClaimName))).toFinset
    ∪ ((wb.filter (fun b => b.VolumeClaimTemplate.isSome)).map (fun b => b.Name)).toFinset

/-- A binding that contributes a claim identity: it references a persistent
volume claim or carries a claim template. -/
def usesClaim (b : WorkspaceBinding) : Bool :=
  b.PersistentVolumeClaim.isSome || b.VolumeClaimTemplate.isSome

/-! ## Concrete values -/

def declSrc : WorkspaceDeclaration := { Name := "src" }
def declCache : WorkspaceDeclaration := { Name := "cache" }
def bindSrc : WorkspaceBinding := { Name := "src", EmptyDir := some () }
def bindCache : WorkspaceBinding := { Name := "cache", EmptyDir := some () }
def bindExtra : WorkspaceBinding := { Name := "extra", EmptyDir := some () }
def bindNoSource : WorkspaceBinding := { Name := "bad" }
def templateA : WorkspaceBinding := { Name := "a", VolumeClaimTemplate := some {} }
def emptyDirB : WorkspaceBinding := { Name := "b", EmptyDir := some () }
def claimAOnB : WorkspaceBinding :=
  { Name := "b", PersistentVolumeClaim := some { ClaimName := "a" } }
def claimXOnC : WorkspaceBinding :=
  { Name := "c", PersistentVolumeClaim := some { ClaimName := "claimX" } }
def claimYOnD : WorkspaceBinding :=
  { Name := "d", PersistentVolumeClaim := some { ClaimName := "claimY" } }
def bothSameA : WorkspaceBinding :=
  { Name := "a", VolumeClaimTemplate := some {},
    PersistentVolumeClaim := some { ClaimName := "a" } }
def bothOtherA : WorkspaceBinding :=
  { Name := "a", VolumeClaimTemplate := some {},
    PersistentVolumeClaim := some { ClaimName := "claimX" } }

/-! ## Lemmas on the first loop of `ValidateBindings` -/

theorem validateEach_eq_none_iff (validate : WorkspaceBinding → Option String)
    (wb : List WorkspaceBinding) :
    validateEach validate wb = none ↔ ∀ b ∈ wb, validate b = none := by
  induction wb with
  | nil => simp [validateEach]
  | cons b rest ih =>
    cases hb : validate b with
    | none => simp [validateEach, hb, ih]
    | some c => simp [validateEach, hb]

theorem validateEach_first_failure (validate : WorkspaceBinding → Option String)
    (pre : List WorkspaceBinding) (b : WorkspaceBinding) (post : List WorkspaceBinding)
    (cause : String) (hpre : ∀ x ∈ pre, validate x = none) (hb : validate b = some cause) :
    validateEach validate (pre ++ b :: post) = some (.bindingInvalid b.Name cause) := by
  induction pre with
  | nil => simp [validateEach, hb]
  | cons x xs ih =>
    have hx : validate x = none := hpre x (List.mem_cons_self _ _)
    have hxs : ∀ y ∈ xs, validate y = none := fun y hy => hpre y (List.mem_cons_of_mem _ hy)
    simp [validateEach, hx, ih hxs]

theorem exists_first_failure (validate : WorkspaceBinding → Option String)
    (wb : List WorkspaceBinding) (h : ∃ b ∈ wb, validate b ≠ none) :
    ∃ pre b post cause, wb = pre ++ b :: post ∧ (∀ x ∈ pre, validate x = none)
      ∧ validate b = some cause := by
  induction wb with
  | nil => simp at h
  | cons x xs ih =>
    cases hx : validate x with
    | some c => exact ⟨[], x, xs, c, rfl, by simp, hx⟩
    | none =>
      have h2 : ∃ b ∈ xs, validate b ≠ none := by
        obtain ⟨b, hb, hne⟩ := h
        rcases List.mem_cons.mp hb with rfl | hb2
        · exact absurd hx hne
        · exact ⟨b, hb2, hne⟩
      obtain ⟨pre, b, post, c, hsplit, hpre, hb⟩ := ih h2
      refine ⟨x :: pre, b, post, c, by simp [hsplit], ?_, hb⟩
      intro y hy
      rcases List.mem_cons.mp hy with rfl | hy2
      · exact hx
      · exact hpre y hy2

theorem ValidateBindings_of_first_failure (validate : WorkspaceBinding → Option String)
    (w : List WorkspaceDeclaration)
    (pre : List WorkspaceBinding) (b : WorkspaceBinding) (post : List WorkspaceBinding)
    (cause : String) (hpre : ∀ x ∈ pre, validate x = none) (hb : validate b = some cause) :
    ValidateBindings validate w (pre ++ b :: post) = some (.bindingInvalid b.Name cause) := by
  simp [ValidateBindings, validateEach_first_failure validate pre b post cause hpre hb]

theorem ValidateBindings_of_valid (validate : WorkspaceBinding → Option String)
    (w : List WorkspaceDeclaration) (wb : List WorkspaceBinding)
    (hvalid : ∀ b ∈ wb, validate b = none) :
    ValidateBindings validate w wb
      = (IsSame (w.map (fun d => d.Name)) (wb.map (fun b => b.Name))).map
          ValidationError.nameMismatch := by
  have h := (validateEach_eq_none_iff validate wb).mpr hvalid
  simp only [ValidateBindings, h]
  cases hI : IsSame (w.map (fun d => d.Name)) (wb.map (fun b => b.Name)) <;> simp

/-! ## Lemmas on the name comparison -/

theorem mem_namesNotIn (left right : List String) (s : String) :
    s ∈ namesNotIn left right ↔ s ∈ left ∧ s ∉ right := by
  simp [namesNotIn]

theorem namesNotIn_eq_nil_iff (left right : List String) :
    namesNotIn left right = [] ↔ ∀ s ∈ left, s ∈ right := by
  simp [namesNotIn, List.filter_eq_nil_iff]

theorem IsSame_eq_none_iff (required provided : List String) :
    IsSame required provided = none ↔ required.toFinset = provided.toFinset := by
  have key : IsSame required provided = none
      ↔ namesNotIn required provided = [] ∧ namesNotIn provided required = [] := by
    unfold IsSame
    simp only [List.length_pos, ne_eq]
    by_cases h1 : namesNotIn required provided = [] <;>
      by_cases h2 : namesNotIn provided required = [] <;> simp [h1, h2]
  rw [key, namesNotIn_eq_nil_iff, namesNotIn_eq_nil_iff]
  constructor
  · rintro ⟨h1, h2⟩
    ext s
    simp only [List.mem_toFinset]
    exact ⟨h1 s, h2 s⟩
  · intro h
    have h3 : ∀ s, s ∈ required ↔ s ∈ provided := by
      intro s
      have := congrArg (fun f => s ∈ f) h
      simpa using this
    exact ⟨fun s hs => (h3 s).mp hs, fun s hs => (h3 s).mpr hs⟩

theorem IsSame_eq_some (required provided : List String) (d : NameDiff)
    (h : IsSame required provided = some d) :
    d.missing = namesNotIn required provided ∧ d.unexpected = namesNotIn provided required := by
  unfold IsSame at h
  simp only at h
  split at h
  · cases h; exact ⟨rfl, rfl⟩
  · cases h

theorem IsSame_of_ne (required provided : List String)
    (h : required.toFinset ≠ provided.toFinset) :
    ∃ d, IsSame required provided = some d
      ∧ d.missing = namesNotIn required provided
      ∧ d.unexpected = namesNotIn provided required := by
  cases hI : IsSame required provided with
  | none => exact absurd ((IsSame_eq_none_iff required provided).mp hI) h
  | some d => exact ⟨d, rfl, IsSame_eq_some required provided d hI⟩

theorem ValidateBindings_eq_none (validate : WorkspaceBinding → Option String)
    (w : List WorkspaceDeclaration) (wb : List WorkspaceBinding)
    (h : ValidateBindings validate w wb = none) :
    (∀ b ∈ wb, validate b = none)
      ∧ (w.map (fun d => d.Name)).toFinset = (wb.map (fun b => b.Name)).toFinset := by
  have hv : validateEach validate wb = none := by
    cases hE : validateEach validate wb with
    | none => rfl
    | some e => simp [ValidateBindings, hE] at h
  have hvalid := (validateEach_eq_none_iff validate wb).mp hv
  rw [ValidateBindings_of_valid validate w wb hvalid] at h
  refine ⟨hvalid, (IsSame_eq_none_iff _ _).mp ?_⟩
  cases hI : IsSame (w.map (fun d => d.Name)) (wb.map (fun b => b.Name)) with
  | none => rfl
  | some d => simp [hI] at h

theorem ValidateBindings_of_mismatch (validate : WorkspaceBinding → Option String)
    (w : List WorkspaceDeclaration) (wb : List WorkspaceBinding)
    (hvalid : ∀ b ∈ wb, validate b = none)
    (h : (w.map (fun d => d.Name)).toFinset ≠ (wb.map (fun b => b.Name)).toFinset) :
    ∃ diff, ValidateBindings validate w wb = some (.nameMismatch diff)
      ∧ (∀ n, n ∈ diff.missing
          ↔ n ∈ w.map (fun d => d.Name) ∧ n ∉ wb.map (fun b => b.Name))
      ∧ (∀ n, n ∈ diff.unexpected
          ↔ n ∈ wb.map (fun b => b.Name) ∧ n ∉ w.map (fun d => d.Name)) := by
  obtain ⟨d, hd, hm, hu⟩ := IsSame_of_ne _ _ h
  refine ⟨d, ?_, ?_, ?_⟩
  · rw [ValidateBindings_of_valid validate w wb hvalid, hd]
    rfl
  · intro n
    rw [hm]
    exact mem_namesNotIn _ _ n
  · intro n
    rw [hu]
    exact mem_namesNotIn _ _ n

/-! ## Lemmas on the map of `ValidateOnlyOnePVCIsUsed` -/

theorem GoMap.keys_set (m : GoMap) (k : String) (v : Bool) :
    (m.set k v).map Prod.fst
      = if k ∈ m.map Prod.fst then m.map Prod.fst else m.map Prod.fst ++ [k] := by
  unfold GoMap.set
  split
  · rw [List.map_map]
    apply List.map_congr_left
    intro p _
    by_cases hp : p.1 = k <;> simp [hp]
  · simp

theorem GoMap.nodup_keys_set (m : GoMap) (k : String) (v : Bool)
    (h : (m.map Prod.fst).Nodup) : ((m.set k v).map Prod.fst).Nodup := by
  rw [GoMap.keys_set]
  split
  · exact h
  · rename_i hk
    exact List.Nodup.append h (List.nodup_singleton k) (by simpa using hk)

theorem GoMap.toFinset_keys_set (m : GoMap) (k : String) (v : Bool) :
    ((m.set k v).map Prod.fst).toFinset = insert k (m.map Prod.fst).toFinset := by
  rw [GoMap.keys_set]
  split
  · rename_i hk
    rw [Finset.insert_eq_of_mem (List.mem_toFinset.mpr hk)]
  · ext x
    simp [or_comm]

theorem mem_claimIdentities (wb : List WorkspaceBinding) (n : String) :
    n ∈ claimIdentities wb
      ↔ (∃ b ∈ wb, ∃ pvc, b.PersistentVolumeClaim = some pvc ∧ pvc.ClaimName = n)
        ∨ (∃ b ∈ wb, b.VolumeClaimTemplate.isSome = true ∧ b.Name = n) := by
  simp [claimIdentities, and_assoc]

theorem claimIdentities_cons (b : WorkspaceBinding) (wb : List WorkspaceBinding) :
    claimIdentities (b :: wb) = claimIdentities [b] ∪ claimIdentities wb := by
  ext n
  simp only [Finset.mem_union, mem_claimIdentities, List.mem_cons, List.mem_singleton,
    List.not_mem_nil, or_false]
  constructor
  · rintro (⟨x, rfl | hx, h⟩ | ⟨x, rfl | hx, h⟩)
    · exact Or.inl (Or.inl ⟨x, rfl, h⟩)
    · exact Or.inr (Or.inl ⟨x, hx, h⟩)
    · exact Or.inl (Or.inr ⟨x, rfl, h⟩)
    · exact Or.inr (Or.inr ⟨x, hx, h⟩)
  · rintro ((⟨x, rfl, h⟩ | ⟨x, rfl, h⟩) | (⟨x, hx, h⟩ | ⟨x, hx, h⟩))
    · exact Or.inl ⟨x, Or.inl rfl, h⟩
    · exact Or.inr ⟨x, Or.inl rfl, h⟩
    · exact Or.inl ⟨x, Or.inr hx, h⟩
    · exact Or.inr ⟨x, Or.inr hx, h⟩

theorem nodup_keys_recordVolumes (m : GoMap) (b : WorkspaceBinding)
    (h : (m.map Prod.fst).Nodup) : ((recordVolumes m b).map Prod.fst).Nodup := by
  unfold recordVolumes
  cases b.PersistentVolumeClaim <;> cases b.VolumeClaimTemplate <;>
    simp only <;> first
      | exact h
      | exact GoMap.nodup_keys_set _ _ _ h
      | exact GoMap.nodup_keys_set _ _ _ (GoMap.nodup_keys_set _ _ _ h)

theorem toFinset_keys_recordVolumes (m : GoMap) (b : WorkspaceBinding) :
    ((recordVolumes m b).map Prod.fst).toFinset
      = (m.map Prod.fst).toFinset ∪ claimIdentities [b] := by
  unfold recordVolumes
  ext n
  cases hp : b.PersistentVolumeClaim <;> cases ht : b.VolumeClaimTemplate <;>
    simp only [GoMap.toFinset_keys_set, Finset.mem_union, Finset.mem_insert,
      mem_claimIdentities, List.mem_singleton, exists_eq_left, hp, ht] <;>
    simp <;> tauto

theorem keys_foldl_recordVolumes (wb : List WorkspaceBinding) (m : GoMap)
    (h : (m.map Prod.fst).Nodup) :
    ((wb.foldl recordVolumes m).map Prod.fst).Nodup
      ∧ ((wb.foldl recordVolumes m).map Prod.fst).toFinset
          = (m.map Prod.fst).toFinset ∪ claimIdentities wb := by
  induction wb generalizing m with
  | nil =>
    refine ⟨h, ?_⟩
    ext n
    simp [mem_claimIdentities]
  | cons b rest ih =>
    obtain ⟨h1, h2⟩ := ih (recordVolumes m b) (nodup_keys_recordVolumes m b h)
    refine ⟨h1, ?_⟩
    rw [List.foldl_cons, h2, toFinset_keys_recordVolumes, claimIdentities_cons b rest,
      Finset.union_assoc]

theorem len_workspaceVolumes (wb : List WorkspaceBinding) :
    (workspaceVolumes wb).len = (claimIdentities wb).card := by
  obtain ⟨h1, h2⟩ := keys_foldl_recordVolumes wb [] List.nodup_nil
  have h3 : ((workspaceVolumes wb).map Prod.fst).toFinset = claimIdentities wb := by
    unfold workspaceVolumes
    rw [h2]
    simp
  have h4 : ((workspaceVolumes wb).map Prod.fst).Nodup := h1
  rw [← h3, List.toFinset_card_of_nodup h4, List.length_map]
  rfl

theorem recordVolumes_of_not_usesClaim (m : GoMap) (b : WorkspaceBinding)
    (h : usesClaim b = false) : recordVolumes m b = m := by
  unfold usesClaim at h
  unfold recordVolumes
  cases hp : b.PersistentVolumeClaim <;> cases ht : b.VolumeClaimTemplate <;>
    simp [hp, ht] at h ⊢

theorem foldl_recordVolumes_filter (wb : List WorkspaceBinding) (m : GoMap) :
    (wb.filter usesClaim).foldl recordVolumes m = wb.foldl recordVolumes m := by
  induction wb generalizing m with
  | nil => rfl
  | cons b rest ih =>
    cases hb : usesClaim b with
    | true => simp [List.filter_cons, hb, ih]
    | false =>
      simp [List.filter_cons, hb, ih, recordVolumes_of_not_usesClaim m b hb]

theorem ValidateOnlyOnePVCIsUsed_eq (wb : List WorkspaceBinding) :
    ValidateOnlyOnePVCIsUsed wb
      = if 1 < (claimIdentities wb).card then some .multiplePVC else none := by
  unfold ValidateOnlyOnePVCIsUsed
  rw [len_workspaceVolumes]

theorem ValidateOnlyOnePVCIsUsed_ne_none_iff (wb : List WorkspaceBinding) :
    ValidateOnlyOnePVCIsUsed wb ≠ none ↔ 1 < (claimIdentities wb).card := by
  rw [ValidateOnlyOnePVCIsUsed_eq]
  by_cases h : 1 < (claimIdentities wb).card <;> simp [h]

theorem ValidateOnlyOnePVCIsUsed_fails_iff (wb : List WorkspaceBinding) :
    ValidateOnlyOnePVCIsUsed wb = some .multiplePVC ↔ 1 < (claimIdentities wb).card := by
  rw [ValidateOnlyOnePVCIsUsed_eq]
  by_cases h : 1 < (claimIdentities wb).card <;> simp [h]

theorem ValidateOnlyOnePVCIsUsed_ok_iff (wb : List WorkspaceBinding) :
    ValidateOnlyOnePVCIsUsed wb = none ↔ (claimIdentities wb).card ≤ 1 := by
  rw [ValidateOnlyOnePVCIsUsed_eq]
  by_cases h : 1 < (claimIdentities wb).card
  · simp [h]
  · simp only [h, if_false, true_iff]
    omega

theorem claimIdentities_subset (wb wb2 : List WorkspaceBinding) (h : wb ⊆ wb2) :
    claimIdentities wb ⊆ claimIdentities wb2 := by
  intro n hn
  rw [mem_claimIdentities] at hn ⊢
  rcases hn with ⟨b, hb, hrest⟩ | ⟨b, hb, hrest⟩
  · exact Or.inl ⟨b, h hb, hrest⟩
  · exact Or.inr ⟨b, h hb, hrest⟩

theorem claimIdentities_card_mono (wb wb2 : List WorkspaceBinding) (h : wb ⊆ wb2) :
    (claimIdentities wb).card ≤ (claimIdentities wb2).card :=
  Finset.card_le_card (claimIdentities_subset wb wb2 h)

/-! ## `ValidateBindings`: the theorems -/

/-- C1: when every binding of `wb` passes its own validation,
`ValidateBindings` returns no error exactly when the set of declared names
equals the set of bound names; both sides are compared as sets, so order and
repetition play no part. -/
theorem ValidateBindings_eq_none_iff_same_name_set
    (validate : WorkspaceBinding → Option String)
    (w : List WorkspaceDeclaration) (wb : List WorkspaceBinding)
    (hvalid : ∀ b ∈ wb, validate b = none) :
    ValidateBindings validate w wb = none
      ↔ (w.map (fun d => d.Name)).toFinset = (wb.map (fun b => b.Name)).toFinset := by
  rw [ValidateBindings_of_valid validate w wb hvalid, ← IsSame_eq_none_iff]
  cases IsSame (w.map (fun d => d.Name)) (wb.map (fun b => b.Name)) <;> simp

theorem ValidateBindings_eq_none_iff_same_name_set_witness :
    (∀ b ∈ [bindCache, bindSrc, bindSrc], WorkspaceBinding.Validate b = none)
      ∧ (ValidateBindings WorkspaceBinding.Validate [declSrc, declCache, declCache]
            [bindCache, bindSrc, bindSrc] = none
          ↔ ([declSrc, declCache, declCache].map (fun d => d.Name)).toFinset
              = ([bindCache, bindSrc, bindSrc].map (fun b => b.Name)).toFinset) :=
  ⟨by decide,
    ValidateBindings_eq_none_iff_same_name_set WorkspaceBinding.Validate
      [declSrc, declCache, declCache] [bindCache, bindSrc, bindSrc] (by decide)⟩

/-- C3: when some binding of `wb` fails its own validation, `ValidateBindings`
returns the error built by `binding %q is invalid: %v` from the name and the
failure of a binding of `wb`; the result is neither success nor a name
mismatch, whatever the declared names are. -/
theorem ValidateBindings_invalid_binding
    (validate : WorkspaceBinding → Option String)
    (w : List WorkspaceDeclaration) (wb : List WorkspaceBinding)
    (h : ∃ b ∈ wb, validate b ≠ none) :
    (∃ b ∈ wb, ∃ cause, validate b = some cause
        ∧ ValidateBindings validate w wb = some (.bindingInvalid b.Name cause))
      ∧ ValidateBindings validate w wb ≠ none
      ∧ (∀ d, ValidateBindings validate w wb ≠ some (.nameMismatch d))
      ∧ (∀ e, ValidateBindings validate w wb = some e
          → e.format = "binding %q is invalid: %v") := by
  obtain ⟨pre, b, post, cause, hsplit, hpre, hb⟩ := exists_first_failure validate wb h
  have hres := ValidateBindings_of_first_failure validate w pre b post cause hpre hb
  rw [← hsplit] at hres
  refine ⟨⟨b, by simp [hsplit], cause, hb, hres⟩, ?_, ?_, ?_⟩
  · simp [hres]
  · intro d; simp [hres]
  · intro e he
    rw [hres] at he
    cases he
    rfl

theorem ValidateBindings_invalid_binding_witness :
    (∃ b ∈ [bindSrc, bindNoSource], WorkspaceBinding.Validate b ≠ none)
      ∧ ValidateBindings WorkspaceBinding.Validate [declSrc, { Name := "bad" }]
          [bindSrc, bindNoSource] ≠ none :=
  ⟨⟨bindNoSource, by decide, by decide⟩,
    (ValidateBindings_invalid_binding WorkspaceBinding.Validate [declSrc, { Name := "bad" }]
      [bindSrc, bindNoSource] ⟨bindNoSource, by decide, by decide⟩).2.1⟩

/-- C4: when some binding of `wb` fails its own validation, `wb` splits at its
first failing binding `b` (every binding before it passes), and the error
carries the name of `b` and the failure of `b`; the same error is returned
for any declarations and for any bindings put after `b`. -/
theorem ValidateBindings_first_error_wins
    (validate : WorkspaceBinding → Option String)
    (w : List WorkspaceDeclaration) (wb : List WorkspaceBinding)
    (h : ∃ b ∈ wb, validate b ≠ none) :
    ∃ pre b post cause, wb = pre ++ b :: post
      ∧ (∀ x ∈ pre, validate x = none)
      ∧ validate b = some cause
      ∧ ValidateBindings validate w wb = some (.bindingInvalid b.Name cause)
      ∧ ∀ (w2 : List WorkspaceDeclaration) (post2 : List WorkspaceBinding),
          ValidateBindings validate w2 (pre ++ b :: post2)
            = ValidateBindings validate w wb := by
  obtain ⟨pre, b, post, cause, hsplit, hpre, hb⟩ := exists_first_failure validate wb h
  have hres := ValidateBindings_of_first_failure validate w pre b post cause hpre hb
  rw [← hsplit] at hres
  refine ⟨pre, b, post, cause, hsplit, hpre, hb, hres, ?_⟩
  intro w2 post2
  rw [hres]
  exact ValidateBindings_of_first_failure validate w2 pre b post2 cause hpre hb

theorem ValidateBindings_first_error_wins_witness :
    (∃ b ∈ [bindSrc, bindNoSource, { Name := "worse" }], WorkspaceBinding.Validate b ≠ none)
      ∧ ∃ pre b post cause, [bindSrc, bindNoSource, { Name := "worse" }] = pre ++ b :: post
        ∧ (∀ x ∈ pre, WorkspaceBinding.Validate x = none)
        ∧ WorkspaceBinding.Validate b = some cause
        ∧ ValidateBindings WorkspaceBinding.Validate [declSrc]
            [bindSrc, bindNoSource, { Name := "worse" }] = some (.bindingInvalid b.Name cause)
        ∧ ∀ (w2 : List WorkspaceDeclaration) (post2 : List WorkspaceBinding),
            ValidateBindings WorkspaceBinding.Validate w2 (pre ++ b :: post2)
              = ValidateBindings WorkspaceBinding.Validate [declSrc]
                  [bindSrc, bindNoSource, { Name := "worse" }] :=
  ⟨⟨bindNoSource, by decide, by decide⟩,
    ValidateBindings_first_error_wins WorkspaceBinding.Validate [declSrc]
      [bindSrc, bindNoSource, { Name := "worse" }] ⟨bindNoSource, by decide, by decide⟩⟩

/-- C5: when every binding passes its own validation and some declared name
has no binding, `ValidateBindings` fails with the error built by
`bound workspaces did not match declared workspaces: %v`, and the names it
reports as missing are exactly the declared names without a binding. -/
theorem ValidateBindings_reports_missing
    (validate : WorkspaceBinding → Option String)
    (w : List WorkspaceDeclaration) (wb : List WorkspaceBinding)
    (hvalid : ∀ b ∈ wb, validate b = none)
    (h : ∃ d ∈ w, d.Name ∉ wb.map (fun b => b.Name)) :
    ∃ diff, ValidateBindings validate w wb = some (.nameMismatch diff)
      ∧ (ValidationError.nameMismatch diff).format
          = "bound workspaces did not match declared workspaces: %v"
      ∧ (∀ d ∈ w, d.Name ∉ wb.map (fun b => b.Name) → d.Name ∈ diff.missing)
      ∧ (∀ n ∈ diff.missing,
          n ∈ w.map (fun d => d.Name) ∧ n ∉ wb.map (fun b => b.Name)) := by
  have hne : (w.map (fun d => d.Name)).toFinset ≠ (wb.map (fun b => b.Name)).toFinset := by
    obtain ⟨d, hd, hnot⟩ := h
    intro heq
    apply hnot
    have hmem : d.Name ∈ (w.map (fun d => d.Name)).toFinset :=
      List.mem_toFinset.mpr (List.mem_map_of_mem (fun d => d.Name) hd)
    rw [heq] at hmem
    exact List.mem_toFinset.mp hmem
  obtain ⟨diff, hres, hm, _⟩ := ValidateBindings_of_mismatch validate w wb hvalid hne
  refine ⟨diff, hres, rfl, ?_, ?_⟩
  · intro d hd hnot
    exact (hm d.Name).mpr ⟨List.mem_map_of_mem (fun d => d.Name) hd, hnot⟩
  · intro n hn
    exact (hm n).mp hn

theorem ValidateBindings_reports_missing_witness :
    (∀ b ∈ [bindSrc], WorkspaceBinding.Validate b = none)
      ∧ (∃ d ∈ [declSrc, declCache], d.Name ∉ [bindSrc].map (fun b => b.Name))
      ∧ (∃ diff, ValidateBindings WorkspaceBinding.Validate [declSrc, declCache] [bindSrc]
            = some (.nameMismatch diff)
          ∧ (ValidationError.nameMismatch diff).format
              = "bound workspaces did not match declared workspaces: %v"
          ∧ (∀ d ∈ [declSrc, declCache], d.Name ∉ [bindSrc].map (fun b => b.Name)
              → d.Name ∈ diff.missing)
          ∧ (∀ n ∈ diff.missing, n ∈ [declSrc, declCache].map (fun d => d.Name)
              ∧ n ∉ [bindSrc].map (fun b => b.Name)))
      ∧ ValidateBindings WorkspaceBinding.Validate [declSrc, declCache] [bindSrc]
          = some (.nameMismatch { missing := ["cache"], unexpected := [] }) :=
  ⟨by decide, ⟨declCache, by decide, by decide⟩,
    ValidateBindings_reports_missing WorkspaceBinding.Validate [declSrc, declCache] [bindSrc]
      (by decide) ⟨declCache, by decide, by decide⟩,
    by decide⟩

/-- C6: when every binding passes its own validation and some bound name is
not declared, `ValidateBindings` fails with a name mismatch whose list of
unexpected names is exactly the bound names that are not declared, and whose
list of missing names, in the same error, is exactly the declared names
without a binding. -/
theorem ValidateBindings_reports_unexpected
    (validate : WorkspaceBinding → Option String)
    (w : List WorkspaceDeclaration) (wb : List WorkspaceBinding)
    (hvalid : ∀ b ∈ wb, validate b = none)
    (h : ∃ b ∈ wb, b.Name ∉ w.map (fun d => d.Name)) :
    ∃ diff, ValidateBindings validate w wb = some (.nameMismatch diff)
      ∧ (∀ b ∈ wb, b.Name ∉ w.map (fun d => d.Name) → b.Name ∈ diff.unexpected)
      ∧ (∀ n ∈ diff.unexpected,
          n ∈ wb.map (fun b => b.Name) ∧ n ∉ w.map (fun d => d.Name))
      ∧ (∀ d ∈ w, d.Name ∉ wb.map (fun b => b.Name) → d.Name ∈ diff.missing)
      ∧ (∀ n ∈ diff.missing,
          n ∈ w.map (fun d => d.Name) ∧ n ∉ wb.map (fun b => b.Name)) := by
  have hne : (w.map (fun d => d.Name)).toFinset ≠ (wb.map (fun b => b.Name)).toFinset := by
    obtain ⟨b, hb, hnot⟩ := h
    intro heq
    apply hnot
    have hmem : b.Name ∈ (wb.map (fun b => b.Name)).toFinset :=
      List.mem_toFinset.mpr (List.mem_map_of_mem (fun b => b.Name) hb)
    rw [← heq] at hmem
    exact List.mem_toFinset.mp hmem
  obtain ⟨diff, hres, hm, hu⟩ := ValidateBindings_of_mismatch validate w wb hvalid hne
  refine ⟨diff, hres, ?_, ?_, ?_, ?_⟩
  · intro b hb hnot
    exact (hu b.Name).mpr ⟨List.mem_map_of_mem (fun b => b.Name) hb, hnot⟩
  · intro n hn
    exact (hu n).mp hn
  · intro d hd hnot
    exact (hm d.Name).mpr ⟨List.mem_map_of_mem (fun d => d.Name) hd, hnot⟩
  · intro n hn
    exact (hm n).mp hn

theorem ValidateBindings_reports_unexpected_witness :
    (∀ b ∈ [bindSrc, bindExtra], WorkspaceBinding.Validate b = none)
      ∧ (∃ b ∈ [bindSrc, bindExtra], b.Name ∉ [declSrc, declCache].map (fun d => d.Name))
      ∧ (∃ diff, ValidateBindings WorkspaceBinding.Validate [declSrc, declCache]
            [bindSrc, bindExtra] = some (.nameMismatch diff)
          ∧ (∀ b ∈ [bindSrc, bindExtra], b.Name ∉ [declSrc, declCache].map (fun d => d.Name)
              → b.Name ∈ diff.unexpected)
          ∧ (∀ n ∈ diff.unexpected, n ∈ [bindSrc, bindExtra].map (fun b => b.Name)
              ∧ n ∉ [declSrc, declCache].map (fun d => d.Name))
          ∧ (∀ d ∈ [declSrc, declCache], d.Name ∉ [bindSrc, bindExtra].map (fun b => b.Name)
              → d.Name ∈ diff.missing)
          ∧ (∀ n ∈ diff.missing, n ∈ [declSrc, declCache].map (fun d => d.Name)
              ∧ n ∉ [bindSrc, bindExtra].map (fun b => b.Name)))
      ∧ ValidateBindings WorkspaceBinding.Validate [declSrc] [bindSrc, bindExtra]
          = some (.nameMismatch { missing := [], unexpected := ["extra"] })
      ∧ ValidateBindings WorkspaceBinding.Validate [declSrc, declCache] [bindSrc, bindExtra]
          = some (.nameMismatch { missing := ["cache"], unexpected := ["extra"] }) :=
  ⟨by decide, ⟨bindExtra, by decide, by decide⟩,
    ValidateBindings_reports_unexpected WorkspaceBinding.Validate [declSrc, declCache]
      [bindSrc, bindExtra] (by decide) ⟨bindExtra, by decide, by decide⟩,
    by decide, by decide⟩

/-- C7, as stated, fails: one declaration `src` with the binding `src` given
twice is accepted, although the name `src` is bound twice and the bound names
are not a permutation of the pairwise distinct declared names. -/
theorem ValidateBindings_accepts_repeated_binding :
    ¬ (∀ (w : List WorkspaceDeclaration) (wb : List WorkspaceBinding),
        ValidateBindings WorkspaceBinding.Validate w wb = none →
          (wb.map (fun b => b.Name)).Nodup
            ∧ (∀ d ∈ w, d.Name ∈ wb.map (fun b => b.Name))
            ∧ (∀ b ∈ wb, b.Name ∈ w.map (fun d => d.Name))
            ∧ ((w.map (fun d => d.Name)).Nodup
                → (wb.map (fun b => b.Name)).Perm (w.map (fun d => d.Name)))) := by
  intro hall
  have h := (hall [declSrc] [bindSrc, bindSrc] (by decide)).1
  revert h
  decide

/-- C7, amended: whenever `ValidateBindings` returns no error, no declared name
is missing from the bindings and no bound name is absent from the
declarations; when moreover the bound names are pairwise distinct and the
declared names are pairwise distinct, the bound names are a permutation of
the declared names. -/
theorem ValidateBindings_ok_names
    (validate : WorkspaceBinding → Option String)
    (w : List WorkspaceDeclaration) (wb : List WorkspaceBinding)
    (h : ValidateBindings validate w wb = none) :
    (∀ d ∈ w, d.Name ∈ wb.map (fun b => b.Name))
      ∧ (∀ b ∈ wb, b.Name ∈ w.map (fun d => d.Name))
      ∧ ((w.map (fun d => d.Name)).Nodup → (wb.map (fun b => b.Name)).Nodup
          → (wb.map (fun b => b.Name)).Perm (w.map (fun d => d.Name))) := by
  have hset := (ValidateBindings_eq_none validate w wb h).2
  have hiff : ∀ n, n ∈ w.map (fun d => d.Name) ↔ n ∈ wb.map (fun b => b.Name) := by
    intro n
    rw [← List.mem_toFinset, hset, List.mem_toFinset]
  refine ⟨?_, ?_, ?_⟩
  · intro d hd
    exact (hiff d.Name).mp (List.mem_map_of_mem (fun d => d.Name) hd)
  · intro b hb
    exact (hiff b.Name).mpr (List.mem_map_of_mem (fun b => b.Name) hb)
  · intro hw hwb
    exact (List.perm_ext_iff_of_nodup hwb hw).mpr (fun n => (hiff n).symm)

theorem ValidateBindings_ok_names_witness :
    ValidateBindings WorkspaceBinding.Validate [declSrc, declCache] [bindCache, bindSrc] = none
      ∧ (∀ d ∈ [declSrc, declCache], d.Name ∈ [bindCache, bindSrc].map (fun b => b.Name))
      ∧ (∀ b ∈ [bindCache, bindSrc], b.Name ∈ [declSrc, declCache].map (fun d => d.Name))
      ∧ (([declSrc, declCache].map (fun d => d.Name)).Nodup
          → ([bindCache, bindSrc].map (fun b => b.Name)).Nodup
          → ([bindCache, bindSrc].map (fun b => b.Name)).Perm
              ([declSrc, declCache].map (fun d => d.Name))) :=
  ⟨by decide,
    ValidateBindings_ok_names WorkspaceBinding.Validate [declSrc, declCache]
      [bindCache, bindSrc] (by decide)⟩

/-- C10: with no declaration and no binding `ValidateBindings` returns no
error, whatever the validation of a binding is. -/
theorem ValidateBindings_nil_nil (validate : WorkspaceBinding → Option String) :
    ValidateBindings validate [] [] = none := by
  rfl

/-! ## `ValidateOnlyOnePVCIsUsed`: the theorems -/

/-- C2: `ValidateOnlyOnePVCIsUsed` returns no error exactly when the set of
claim identities of the bindings (claim names of the bindings that reference
a persistent volume claim, names of the bindings that carry a claim
template) has at most one member. -/
theorem ValidateOnlyOnePVCIsUsed_eq_none_iff (wb : List WorkspaceBinding) :
    ValidateOnlyOnePVCIsUsed wb = none ↔ (claimIdentities wb).card ≤ 1 := by
  unfold ValidateOnlyOnePVCIsUsed
  rw [len_workspaceVolumes]
  by_cases h : (claimIdentities wb).card > 1
  · simp [h]
  · simp only [h, if_false, true_iff]
    omega

/-- C8, as stated, fails: a template binding named `a` and a binding named `b`
that references the claim `a` have different names, yet the list of the two
is accepted, because both contribute the one identity `a`. -/
theorem ValidateOnlyOnePVCIsUsed_accepts_template_and_same_named_claim :
    templateA.Name ≠ claimAOnB.Name
      ∧ templateA.VolumeClaimTemplate.isSome = true
      ∧ claimAOnB.PersistentVolumeClaim.isSome = true
      ∧ templateA ∈ [templateA, claimAOnB] ∧ claimAOnB ∈ [templateA, claimAOnB]
      ∧ ValidateOnlyOnePVCIsUsed [templateA, claimAOnB] = none := by
  decide

/-- C8, amended: for two bindings with different names, one carrying a claim
template and the other referencing a persistent volume claim whose claim name
differs from the name of the template binding, `ValidateOnlyOnePVCIsUsed`
fails on every list that contains both. -/
theorem ValidateOnlyOnePVCIsUsed_template_and_other_claim
    (wb : List WorkspaceBinding) (t p : WorkspaceBinding)
    (pvc : PersistentVolumeClaimVolumeSource)
    (ht : t ∈ wb) (hp : p ∈ wb) (_hname : t.Name ≠ p.Name)
    (htemplate : t.VolumeClaimTemplate.isSome = true)
    (hclaim : p.PersistentVolumeClaim = some pvc)
    (hdiff : pvc.ClaimName ≠ t.Name) :
    ValidateOnlyOnePVCIsUsed wb = some .multiplePVC := by
  have h1 : t.Name ∈ claimIdentities wb :=
    (mem_claimIdentities wb t.Name).mpr (Or.inr ⟨t, ht, htemplate, rfl⟩)
  have h2 : pvc.ClaimName ∈ claimIdentities wb :=
    (mem_claimIdentities wb pvc.ClaimName).mpr (Or.inl ⟨p, hp, pvc, hclaim, rfl⟩)
  have h3 : 1 < (claimIdentities wb).card :=
    Finset.one_lt_card.mpr ⟨pvc.ClaimName, h2, t.Name, h1, hdiff⟩
  unfold ValidateOnlyOnePVCIsUsed
  rw [len_workspaceVolumes]
  simp [h3]

theorem ValidateOnlyOnePVCIsUsed_template_and_other_claim_witness :
    templateA ∈ [emptyDirB, templateA, claimXOnC]
      ∧ claimXOnC ∈ [emptyDirB, templateA, claimXOnC]
      ∧ templateA.Name ≠ claimXOnC.Name
      ∧ templateA.VolumeClaimTemplate.isSome = true
      ∧ claimXOnC.PersistentVolumeClaim = some { ClaimName := "claimX" }
      ∧ "claimX" ≠ templateA.Name
      ∧ ValidateOnlyOnePVCIsUsed [emptyDirB, templateA, claimXOnC] = some .multiplePVC :=
  ⟨by decide, by decide, by decide, by decide, rfl, by decide,
    ValidateOnlyOnePVCIsUsed_template_and_other_claim [emptyDirB, templateA, claimXOnC]
      templateA claimXOnC { ClaimName := "claimX" }
      (by decide) (by decide) (by decide) (by decide) rfl (by decide)⟩

/-- C9: bindings with neither a persistent volume claim nor a claim template
leave no trace: two lists that agree once these bindings are deleted (so each
is obtained from the other by inserting and removing such bindings, any
number, anywhere) build the same map and get the same result from
`ValidateOnlyOnePVCIsUsed`. -/
theorem ValidateOnlyOnePVCIsUsed_ignores_other_sources
    (wb wb2 : List WorkspaceBinding)
    (h : wb.filter usesClaim = wb2.filter usesClaim) :
    workspaceVolumes wb = workspaceVolumes wb2
      ∧ ValidateOnlyOnePVCIsUsed wb = ValidateOnlyOnePVCIsUsed wb2 := by
  have hmap : workspaceVolumes wb = workspaceVolumes wb2 := by
    unfold workspaceVolumes
    rw [← foldl_recordVolumes_filter wb, ← foldl_recordVolumes_filter wb2, h]
  refine ⟨hmap, ?_⟩
  unfold ValidateOnlyOnePVCIsUsed
  rw [hmap]

theorem ValidateOnlyOnePVCIsUsed_ignores_other_sources_witness :
    [templateA, emptyDirB].filter usesClaim = [bindSrc, templateA, bindCache].filter usesClaim
      ∧ (workspaceVolumes [templateA, emptyDirB] = workspaceVolumes [bindSrc, templateA, bindCache]
          ∧ ValidateOnlyOnePVCIsUsed [templateA, emptyDirB]
              = ValidateOnlyOnePVCIsUsed [bindSrc, templateA, bindCache])
      ∧ ValidateOnlyOnePVCIsUsed [templateA, emptyDirB] = none
      ∧ workspaceVolumes [templateA, emptyDirB] = [("a", true)] :=
  ⟨by decide,
    ValidateOnlyOnePVCIsUsed_ignores_other_sources [templateA, emptyDirB]
      [bindSrc, templateA, bindCache] (by decide),
    by decide, by decide⟩

/-- C11: every failing call of `ValidateOnlyOnePVCIsUsed` returns the one
error whose message is `more than one PersistentVolumeClaim is bound`; two
lists that both fail get equal errors, whichever and however many claim
identities they hold. -/
theorem ValidateOnlyOnePVCIsUsed_fixed_error
    (wb wb2 : List WorkspaceBinding)
    (h : ValidateOnlyOnePVCIsUsed wb ≠ none) (h2 : ValidateOnlyOnePVCIsUsed wb2 ≠ none) :
    ValidateOnlyOnePVCIsUsed wb = ValidateOnlyOnePVCIsUsed wb2
      ∧ ValidateOnlyOnePVCIsUsed wb = some .multiplePVC
      ∧ (∀ e, ValidateOnlyOnePVCIsUsed wb = some e
          → e.format = "more than one PersistentVolumeClaim is bound") := by
  have e1 : ValidateOnlyOnePVCIsUsed wb = some .multiplePVC :=
    (ValidateOnlyOnePVCIsUsed_fails_iff wb).mpr ((ValidateOnlyOnePVCIsUsed_ne_none_iff wb).mp h)
  have e2 : ValidateOnlyOnePVCIsUsed wb2 = some .multiplePVC :=
    (ValidateOnlyOnePVCIsUsed_fails_iff wb2).mpr
      ((ValidateOnlyOnePVCIsUsed_ne_none_iff wb2).mp h2)
  refine ⟨by rw [e1, e2], e1, ?_⟩
  intro e he
  rw [e1] at he
  cases he
  rfl

theorem ValidateOnlyOnePVCIsUsed_fixed_error_witness :
    ValidateOnlyOnePVCIsUsed [templateA, claimXOnC] ≠ none
      ∧ ValidateOnlyOnePVCIsUsed [claimXOnC, claimYOnD, templateA, claimAOnB] ≠ none
      ∧ (claimIdentities [templateA, claimXOnC]).card = 2
      ∧ (claimIdentities [claimXOnC, claimYOnD, templateA, claimAOnB]).card = 3
      ∧ ValidateOnlyOnePVCIsUsed [templateA, claimXOnC]
          = ValidateOnlyOnePVCIsUsed [claimXOnC, claimYOnD, templateA, claimAOnB]
      ∧ ValidateOnlyOnePVCIsUsed [templateA, claimXOnC] = some .multiplePVC
      ∧ (∀ e, ValidateOnlyOnePVCIsUsed [templateA, claimXOnC] = some e
          → e.format = "more than one PersistentVolumeClaim is bound") :=
  ⟨by decide, by decide, by decide, by decide,
    ValidateOnlyOnePVCIsUsed_fixed_error [templateA, claimXOnC]
      [claimXOnC, claimYOnD, templateA, claimAOnB] (by decide) (by decide)⟩

/-- C12: a single binding that has both a persistent volume claim reference
and a claim template records its claim name and then its own name, so the
one-element list fails exactly when the claim name differs from the name of
the binding; no validation of the binding is run. -/
theorem ValidateOnlyOnePVCIsUsed_binding_with_both_sources
    (b : WorkspaceBinding) (pvc : PersistentVolumeClaimVolumeSource)
    (t : PersistentVolumeClaim)
    (hp : b.PersistentVolumeClaim = some pvc) (ht : b.VolumeClaimTemplate = some t) :
    workspaceVolumes [b] = (GoMap.set [] pvc.ClaimName true).set b.Name true
      ∧ (∀ n, n ∈ claimIdentities [b] ↔ n = pvc.ClaimName ∨ n = b.Name)
      ∧ (ValidateOnlyOnePVCIsUsed [b] = some .multiplePVC ↔ pvc.ClaimName ≠ b.Name)
      ∧ (ValidateOnlyOnePVCIsUsed [b] = none ↔ pvc.ClaimName = b.Name) := by
  have hmem : ∀ n, n ∈ claimIdentities [b] ↔ n = pvc.ClaimName ∨ n = b.Name := by
    intro n
    rw [mem_claimIdentities]
    simp only [List.mem_singleton, exists_eq_left, hp, ht, Option.some.injEq,
      Option.isSome_some, true_and]
    constructor
    · rintro (⟨x, rfl, rfl⟩ | h)
      · exact Or.inl rfl
      · exact Or.inr h.symm
    · rintro (rfl | rfl)
      · exact Or.inl ⟨pvc, rfl, rfl⟩
      · exact Or.inr rfl
  have hset : claimIdentities [b] = {pvc.ClaimName, b.Name} := by
    ext n
    rw [hmem n]
    simp
  refine ⟨?_, hmem, ?_, ?_⟩
  · simp [workspaceVolumes, recordVolumes, hp, ht]
  · rw [ValidateOnlyOnePVCIsUsed_fails_iff, hset]
    by_cases heq : pvc.ClaimName = b.Name
    · simp [heq]
    · simp [heq, Finset.card_pair heq]
  · rw [ValidateOnlyOnePVCIsUsed_ok_iff, hset]
    by_cases heq : pvc.ClaimName = b.Name
    · simp [heq]
    · simp [heq, Finset.card_pair heq]

theorem ValidateOnlyOnePVCIsUsed_binding_with_both_sources_witness :
    bothOtherA.PersistentVolumeClaim = some { ClaimName := "claimX" }
      ∧ bothOtherA.VolumeClaimTemplate = some {}
      ∧ (workspaceVolumes [bothOtherA]
            = (GoMap.set [] "claimX" true).set bothOtherA.Name true
          ∧ (∀ n, n ∈ claimIdentities [bothOtherA] ↔ n = "claimX" ∨ n = bothOtherA.Name)
          ∧ (ValidateOnlyOnePVCIsUsed [bothOtherA] = some .multiplePVC
              ↔ "claimX" ≠ bothOtherA.Name)
          ∧ (ValidateOnlyOnePVCIsUsed [bothOtherA] = none ↔ "claimX" = bothOtherA.Name))
      ∧ ValidateOnlyOnePVCIsUsed [bothOtherA] = some .multiplePVC
      ∧ workspaceVolumes [bothOtherA] = [("claimX", true), ("a", true)]
      ∧ ValidateOnlyOnePVCIsUsed [bothSameA] = none
      ∧ WorkspaceBinding.Validate bothSameA ≠ none :=
  ⟨rfl, rfl,
    ValidateOnlyOnePVCIsUsed_binding_with_both_sources bothOtherA
      { ClaimName := "claimX" } {} rfl rfl,
    by decide, by decide, by decide, by decide⟩

/-- C13: claim names and names of template bindings are keys of one map: a
binding whose source is a claim template, named `n`, together with a
differently named binding whose source is a reference to the claim `n`, in
either order, gives the single identity `n` and is accepted. -/
theorem ValidateOnlyOnePVCIsUsed_shared_identity_namespace
    (t p : WorkspaceBinding) (pvc : PersistentVolumeClaimVolumeSource)
    (htemplate : t.VolumeClaimTemplate.isSome = true)
    (htonly : t.PersistentVolumeClaim = none)
    (hclaim : p.PersistentVolumeClaim = some pvc)
    (hponly : p.VolumeClaimTemplate = none)
    (_hname : t.Name ≠ p.Name)
    (hsame : pvc.ClaimName = t.Name) :
    claimIdentities [t, p] = {t.Name}
      ∧ ValidateOnlyOnePVCIsUsed [t, p] = none
      ∧ ValidateOnlyOnePVCIsUsed [p, t] = none := by
  have hset : ∀ l : List WorkspaceBinding, (∀ b, b ∈ l ↔ b = t ∨ b = p) →
      claimIdentities l = {t.Name} := by
    intro l hl
    ext n
    rw [mem_claimIdentities, Finset.mem_singleton]
    constructor
    · rintro (⟨b, hb, q, hq, rfl⟩ | ⟨b, hb, hq, rfl⟩)
      · rcases (hl b).mp hb with rfl | rfl
        · rw [htonly] at hq
          cases hq
        · rw [hclaim] at hq
          cases hq
          exact hsame
      · rcases (hl b).mp hb with rfl | rfl
        · rfl
        · rw [hponly] at hq
          cases hq
    · rintro rfl
      exact Or.inr ⟨t, (hl t).mpr (Or.inl rfl), htemplate, rfl⟩
  have h1 : claimIdentities [t, p] = {t.Name} := hset [t, p] (by intro b; simp)
  have h2 : claimIdentities [p, t] = {t.Name} := hset [p, t] (by intro b; simp [or_comm])
  refine ⟨h1, ?_, ?_⟩
  · rw [ValidateOnlyOnePVCIsUsed_ok_iff, h1]
    simp
  · rw [ValidateOnlyOnePVCIsUsed_ok_iff, h2]
    simp

theorem ValidateOnlyOnePVCIsUsed_shared_identity_namespace_witness :
    templateA.VolumeClaimTemplate.isSome = true
      ∧ templateA.PersistentVolumeClaim = none
      ∧ claimAOnB.PersistentVolumeClaim = some { ClaimName := "a" }
      ∧ claimAOnB.VolumeClaimTemplate = none
      ∧ templateA.Name ≠ claimAOnB.Name
      ∧ WorkspaceBinding.Validate templateA = none
      ∧ WorkspaceBinding.Validate claimAOnB = none
      ∧ (claimIdentities [templateA, claimAOnB] = {templateA.Name}
          ∧ ValidateOnlyOnePVCIsUsed [templateA, claimAOnB] = none
          ∧ ValidateOnlyOnePVCIsUsed [claimAOnB, templateA] = none) :=
  ⟨by decide, rfl, rfl, rfl, by decide, by decide, by decide,
    ValidateOnlyOnePVCIsUsed_shared_identity_namespace templateA claimAOnB
      { ClaimName := "a" } (by decide) rfl rfl rfl (by decide) rfl⟩

/-- C14: `ValidateOnlyOnePVCIsUsed` is monotone. If it fails on `wb` it fails
on every list that holds all the bindings of `wb`, in any order and with any
further bindings (in particular when `wb` is a sublist of a permutation of
it); if it succeeds on `wb2` it succeeds on every sublist of `wb2` and on
every permutation of `wb2`, and a permutation has the same result. -/
theorem ValidateOnlyOnePVCIsUsed_monotone (wb wb2 : List WorkspaceBinding) :
    (wb ⊆ wb2 → ValidateOnlyOnePVCIsUsed wb = some .multiplePVC
        → ValidateOnlyOnePVCIsUsed wb2 = some .multiplePVC)
      ∧ (wb.Subperm wb2 → ValidateOnlyOnePVCIsUsed wb ≠ none
          → ValidateOnlyOnePVCIsUsed wb2 ≠ none)
      ∧ (wb.Sublist wb2 → ValidateOnlyOnePVCIsUsed wb2 = none
          → ValidateOnlyOnePVCIsUsed wb = none)
      ∧ (wb.Perm wb2 → ValidateOnlyOnePVCIsUsed wb2 = none
          → ValidateOnlyOnePVCIsUsed wb = none)
      ∧ (wb.Perm wb2 → ValidateOnlyOnePVCIsUsed wb = ValidateOnlyOnePVCIsUsed wb2) := by
  have hfail : ∀ l l2 : List WorkspaceBinding, l ⊆ l2 →
      1 < (claimIdentities l).card → 1 < (claimIdentities l2).card :=
    fun l l2 hsub h => lt_of_lt_of_le h (claimIdentities_card_mono l l2 hsub)
  have hok : ∀ l l2 : List WorkspaceBinding, l ⊆ l2 →
      ValidateOnlyOnePVCIsUsed l2 = none → ValidateOnlyOnePVCIsUsed l = none := by
    intro l l2 hsub h
    rw [ValidateOnlyOnePVCIsUsed_ok_iff] at h ⊢
    exact le_trans (claimIdentities_card_mono l l2 hsub) h
  refine ⟨?_, ?_, ?_, ?_, ?_⟩
  · intro hsub h
    rw [ValidateOnlyOnePVCIsUsed_fails_iff] at h ⊢
    exact hfail wb wb2 hsub h
  · intro hsub h
    rw [ValidateOnlyOnePVCIsUsed_ne_none_iff] at h ⊢
    exact hfail wb wb2 hsub.subset h
  · intro hsub h
    exact hok wb wb2 hsub.subset h
  · intro hperm h
    exact hok wb wb2 hperm.subset h
  · intro hperm
    have hcard : (claimIdentities wb).card = (claimIdentities wb2).card :=
      le_antisymm (claimIdentities_card_mono wb wb2 hperm.subset)
        (claimIdentities_card_mono wb2 wb hperm.symm.subset)
    rw [ValidateOnlyOnePVCIsUsed_eq, ValidateOnlyOnePVCIsUsed_eq, hcard]

theorem ValidateOnlyOnePVCIsUsed_monotone_witness :
    ([claimXOnC, templateA] ⊆ [templateA, emptyDirB, claimXOnC, claimYOnD]
        ∧ ValidateOnlyOnePVCIsUsed [claimXOnC, templateA] = some .multiplePVC
        ∧ ValidateOnlyOnePVCIsUsed [templateA, emptyDirB, claimXOnC, claimYOnD]
            = some .multiplePVC)
      ∧ ([templateA, claimAOnB].Sublist [emptyDirB, templateA, bindSrc, claimAOnB]
        ∧ ValidateOnlyOnePVCIsUsed [emptyDirB, templateA, bindSrc, claimAOnB] = none
        ∧ ValidateOnlyOnePVCIsUsed [templateA, claimAOnB] = none)
      ∧ ([claimAOnB, templateA].Perm [templateA, claimAOnB]
        ∧ ValidateOnlyOnePVCIsUsed [templateA, claimAOnB] = none
        ∧ ValidateOnlyOnePVCIsUsed [claimAOnB, templateA] = none) :=
  ⟨⟨by decide, by decide,
      (ValidateOnlyOnePVCIsUsed_monotone [claimXOnC, templateA]
        [templateA, emptyDirB, claimXOnC, claimYOnD]).1 (by decide) (by decide)⟩,
    ⟨by decide, by decide,
      (ValidateOnlyOnePVCIsUsed_monotone [templateA, claimAOnB]
        [emptyDirB, templateA, bindSrc, claimAOnB]).2.2.1 (by decide) (by decide)⟩,
    ⟨by decide, by decide,
      (ValidateOnlyOnePVCIsUsed_monotone [claimAOnB, templateA]
        [templateA, claimAOnB]).2.2.2.1 (by decide) (by decide)⟩⟩

end Workspace
